import Mathlib

/-!
Verification of the yt-transcript-extractor core against its specification.

The Python sources are shallowly embedded below:
* `parse_video_id`, `get_transcript`, `format_text`, `format_json`,
  `format_doc`, `extract` from `extractor.py`;
* the exception hierarchy from `errors.py`;
* the `TranscriptStore` persistence layer (its source file is not in the
  repository snapshot, so it is modelled from the specification, marked in
  its doc comments).

Python floats are modelled as rationals, machine strings as Lean strings
(lists of characters for the pattern matchers).  Fallible operations
return `Except`.
-/

namespace YTX

/-! ## Character classes and Python `str.strip` -/

/-- The base64url alphabet of the regex class `[A-Za-z0-9_-]` used by every
video-id capturing group in `extractor.py`. -/
def isIdChar (c : Char) : Bool :=
  c.isAlpha || c.isDigit || c = '_' || c = '-'

/-- Whitespace as stripped by Python's `str.strip()` (restricted to the ASCII
whitespace characters, which is all the repository's inputs use). -/
def isSpaceChar (c : Char) : Bool :=
  c = ' ' || c = '\t' || c = '\n' || c = '\r'

/-- `url_or_id.strip()` from `parse_video_id`: drop leading and trailing
whitespace. -/
def pyStrip (l : List Char) : List Char :=
  ((l.dropWhile isSpaceChar).reverse.dropWhile isSpaceChar).reverse

/-! ## The URL regex patterns of `extractor.py`

The three members of `_URL_PATTERNS` and `_BARE_ID_PATTERN` are embedded as
explicit backtracking matchers with Python `re` semantics: a `search` tries
start positions left to right; at a position, alternatives are tried in the
regex's priority order (an optional group first with, then without, its
content; `.*` greedily, longest first, never across a newline), backtracking
into the continuation; `[A-Za-z0-9_-]{11}` takes exactly eleven class
characters. -/

/-- Match the literal `lit` at the front of `s` and continue with `k` on the
rest (a regex literal piece such as `youtube\.com/watch\?`). -/
def tryLit (lit : List Char) (s : List Char) (k : List Char → Option (List Char)) :
    Option (List Char) :=
  if lit.isPrefixOf s then k (s.drop lit.length) else none

/-- Try the literal alternatives in priority order, backtracking into the
continuation `k` (models `(?:https?://)?`, `(?:www\.)?`,
`(?:embed|shorts|v)/`; an optional group lists `[]` last). -/
def tryAlts (alts : List (List Char)) (s : List Char) (k : List Char → Option (List Char)) :
    Option (List Char) :=
  match alts with
  | [] => none
  | a :: rest =>
    match tryLit a s k with
    | some r => some r
    | none => tryAlts rest s k

/-- Greedy `.*`: consume as many non-newline characters as possible, then
backtrack towards consuming none, calling `k` on each remainder. -/
def tryDotStar (k : List Char → Option (List Char)) : List Char → Option (List Char)
  | [] => k []
  | c :: cs =>
    if c = '\n' then k (c :: cs)
    else
      match tryDotStar k cs with
      | some r => some r
      | none => k (c :: cs)

/-- The capturing group `(?P<id>[A-Za-z0-9_-]{11})` ending each pattern:
exactly eleven characters of the id alphabet. -/
def tryId11 (s : List Char) : Option (List Char) :=
  let id := s.take 11
  if id.length = 11 && id.all isIdChar then some id else none

/-- The alternatives of `(?:https?://)?` in priority order. -/
def protoAlts : List (List Char) :=
  ["https://".data, "http://".data, []]

/-- The alternatives of `(?:www\.)?` in priority order. -/
def wwwAlts : List (List Char) := ["www.".data, []]

/-- Pattern 1 of `_URL_PATTERNS`, anchored at one start position:
`(?:https?://)?(?:www\.)?youtube\.com/watch\?.*v=(?P<id>[A-Za-z0-9_-]{11})`. -/
def tryAt1 (s : List Char) : Option (List Char) :=
  tryAlts protoAlts s fun s1 =>
  tryAlts wwwAlts s1 fun s2 =>
  tryLit "youtube.com/watch?".data s2 fun s3 =>
  tryDotStar (fun s4 => tryLit "v=".data s4 fun s5 => tryId11 s5) s3

/-- Pattern 2 of `_URL_PATTERNS`, anchored at one start position:
`(?:https?://)?youtu\.be/(?P<id>[A-Za-z0-9_-]{11})`. -/
def tryAt2 (s : List Char) : Option (List Char) :=
  tryAlts protoAlts s fun s1 =>
  tryLit "youtu.be/".data s1 fun s2 =>
  tryId11 s2

/-- Pattern 3 of `_URL_PATTERNS`, anchored at one start position:
`(?:https?://)?(?:www\.)?youtube\.com/(?:embed|shorts|v)/(?P<id>[A-Za-z0-9_-]{11})`. -/
def tryAt3 (s : List Char) : Option (List Char) :=
  tryAlts protoAlts s fun s1 =>
  tryAlts wwwAlts s1 fun s2 =>
  tryLit "youtube.com/".data s2 fun s3 =>
  tryAlts ["embed/".data, "shorts/".data, "v/".data] s3 fun s4 =>
  tryId11 s4

/-- Python `pattern.search`: try the anchored matcher at each start position,
leftmost first. -/
def reSearch (tryAt : List Char → Option (List Char)) : List Char → Option (List Char)
  | [] => tryAt []
  | c :: cs =>
    match tryAt (c :: cs) with
    | some r => some r
    | none => reSearch tryAt cs

/-- `_BARE_ID_PATTERN.match`: the anchored regex `^[A-Za-z0-9_-]{11}$`. -/
def bareIdMatch (s : List Char) : Bool :=
  s.length = 11 && s.all isIdChar

/-! ## The exception hierarchy of `errors.py`

Each Python exception class becomes a kind carrying the extra fields the
class stores; every error value carries `message` and `http_status` as in
`TranscriptError.__init__`. -/

/-- The concrete class of a raised `TranscriptError`, with the payload fields
the subclass constructors store on the instance. -/
inductive TEKind
  | base
  | videoNotFound (videoId : String)
  | transcriptUnavailable (videoId : String)
  | languageNotAvailable (videoId : String) (requested : List String)
  | metadataFetch (videoId : String)
  | storage
  deriving DecidableEq, Repr

/-- A raised `TranscriptError` (or subclass): kind plus the `message` and
`http_status` attributes set by `TranscriptError.__init__`. -/
structure TranscriptErr where
  kind : TEKind
  message : String
  http_status : Nat
  deriving DecidableEq, Repr

/-- `TranscriptError(message)` with the default `http_status=500`. -/
def transcriptError (message : String) : TranscriptErr :=
  ⟨TEKind.base, message, 500⟩

/-- `VideoNotFoundError(video_id)`: message `Video not found: …`, status 404. -/
def videoNotFoundError (videoId : String) : TranscriptErr :=
  ⟨TEKind.videoNotFound videoId, "Video not found: " ++ videoId, 404⟩

/-- `TranscriptUnavailableError(video_id)`: status 404. -/
def transcriptUnavailableError (videoId : String) : TranscriptErr :=
  ⟨TEKind.transcriptUnavailable videoId,
    "No transcript available for video: " ++ videoId, 404⟩

/-- `LanguageNotAvailableError(video_id, requested)`: status 400, message
listing the requested languages comma-joined. -/
def languageNotAvailableError (videoId : String) (requested : List String) :
    TranscriptErr :=
  ⟨TEKind.languageNotAvailable videoId requested,
    "Transcript not available in language(s) [" ++ String.intercalate ", " requested
      ++ "] for video: " ++ videoId, 400⟩

/-- `MetadataFetchError(video_id, reason)`: status 502. -/
def metadataFetchError (videoId : String) (reason : String) : TranscriptErr :=
  ⟨TEKind.metadataFetch videoId,
    "Failed to fetch metadata for video " ++ videoId
      ++ (if reason = "" then "" else ": " ++ reason), 502⟩

/-- `StorageError(message)`: status 500. -/
def storageError (message : String) : TranscriptErr :=
  ⟨TEKind.storage, message, 500⟩

/-! ## `parse_video_id` -/

/-- The body of `parse_video_id` after the `strip()`: try the three URL
patterns in order, fall back to the bare-id pattern, otherwise raise
`VideoNotFoundError` on the (stripped) string. -/
def parseCore (s : List Char) : Except TranscriptErr String :=
  match reSearch tryAt1 s with
  | some id => Except.ok ⟨id⟩
  | none =>
    match reSearch tryAt2 s with
    | some id => Except.ok ⟨id⟩
    | none =>
      match reSearch tryAt3 s with
      | some id => Except.ok ⟨id⟩
      | none =>
        if bareIdMatch s then Except.ok ⟨s⟩
        else Except.error (videoNotFoundError ⟨s⟩)

/-- `parse_video_id` from `extractor.py`: strip the input, then try the
three URL patterns in order, falling back to the bare-id pattern. -/
def parse_video_id (urlOrId : String) : Except TranscriptErr String :=
  parseCore (pyStrip urlOrId.data)


/-! ## Segments, the caption fetch client, and `get_transcript` -/

/-- One timed caption unit, the `.text` / `.start` / `.duration` snippet
shape shared by the live fetch result and the stored rows. -/
structure Segment where
  text : String
  start : ℚ
  duration : ℚ
  deriving DecidableEq, Repr

/-- The payload of a successful `YouTubeTranscriptApi.fetch`: the snippet
list plus the `language`, `language_code` and `is_generated` attributes the
store reads. -/
structure TranscriptData where
  snippets : List Segment
  language : String
  language_code : String
  is_generated : Bool
  deriving DecidableEq, Repr

/-- `_DEFAULT_LANGUAGES` from `extractor.py`. -/
def defaultLanguages : List String := ["en"]

/-- The behaviour of the black-box caption fetch client on one call: either
the fetched transcript or one of the upstream exception classes
`get_transcript` catches. -/
inductive FetchOutcome
  | success (t : TranscriptData)
  | invalidVideoId
  | videoUnavailable
  | transcriptsDisabled
  | noTranscriptFound
  | couldNotRetrieve (msg : String)
  deriving DecidableEq, Repr

/-- `get_transcript` from `extractor.py`: default the language list when
none (or an empty list) is supplied, then map each upstream exception class
to the library's own hierarchy exactly as the `except` clauses do. -/
def get_transcript (videoId : String) (languages : Option (List String))
    (outcome : FetchOutcome) : Except TranscriptErr TranscriptData :=
  let langs := match languages with
    | none => defaultLanguages
    | some [] => defaultLanguages
    | some l => l
  match outcome with
  | FetchOutcome.success t => Except.ok t
  | FetchOutcome.invalidVideoId => Except.error (videoNotFoundError videoId)
  | FetchOutcome.videoUnavailable => Except.error (videoNotFoundError videoId)
  | FetchOutcome.transcriptsDisabled => Except.error (transcriptUnavailableError videoId)
  | FetchOutcome.noTranscriptFound => Except.error (languageNotAvailableError videoId langs)
  | FetchOutcome.couldNotRetrieve msg => Except.error (transcriptError msg)

/-! ## Formatting: `format_text` and `format_json` -/

/-- Python's `sep.join(xs)`: empty on no pieces, otherwise the first piece
followed by `sep` and each later piece. -/
def pyJoin (sep : String) : List String → String
  | [] => ""
  | x :: rest => rest.foldl (fun acc t => acc ++ sep ++ t) x

/-- `format_text` from `extractor.py`: `"\n".join(snippet.text ...)`. -/
def format_text (transcript : List Segment) : String :=
  pyJoin "\n" (transcript.map Segment.text)

/-- The dict returned by `format_json`: keys `video_id`, `segment_count`,
`segments`. -/
structure JsonDoc where
  video_id : String
  segment_count : Nat
  segments : List Segment
  deriving DecidableEq, Repr

/-- `format_json` from `extractor.py`. -/
def format_json (transcript : List Segment) (videoId : String) : JsonDoc :=
  { video_id := videoId, segment_count := transcript.length, segments := transcript }

/-! ## Formatting: `format_doc` and its helpers -/

/-- `_DOC_PARAGRAPH_INTERVAL_SECS` from `extractor.py`. -/
def docParagraphIntervalSecs : ℚ := 30

/-- Python `int()` on a float: truncation toward zero. -/
def pyInt (q : ℚ) : Int :=
  if q < 0 then -Int.floor (-q) else Int.floor q

/-- Python `f"{n:02d}"`: the decimal representation zero-padded to at
least two characters. -/
def pad2 (n : Int) : String :=
  let s := toString n
  if s.length < 2 then "0" ++ s else s

/-- `_seconds_to_mmss` from `extractor.py`: truncate, `divmod(total, 60)`
(Python floor division), both parts zero-padded to two digits. -/
def seconds_to_mmss (seconds : ℚ) : String :=
  let total := pyInt seconds
  let mins := Int.fdiv total 60
  let secs := Int.fmod total 60
  pad2 mins ++ ":" ++ pad2 secs

/-- `_format_details_block` from `extractor.py`: the collapsible
`<details>` block with a 75-character preview in the summary bar. -/
def format_details_block (timestamp body : String) : String :=
  let preview := if body.length > 75 then body.take 75 ++ "..." else body
  "<details>\n<summary><span class=\"timestamp\">" ++ timestamp ++ "</span> "
    ++ preview ++ "</summary>\n<div class=\"panel-content\">" ++ body
    ++ "</div>\n</details>"

/-- A verbatim piece of `_HTML_TEMPLATE` (between the format holes). -/
def htmlChunk1 : String :=
    "<!DOCTYPE html>\n" ++
    "<html lang=\"en\">\n" ++
    "<head>\n" ++
    "<meta charset=\"utf-8\">\n" ++
    "<meta name=\"viewport\" content=\"width=device-width, initial-scale=1\">\n" ++
    "<title>"

/-- A verbatim piece of `_HTML_TEMPLATE` (between the format holes). -/
def htmlChunk2 : String :=
    "</title>\n" ++
    "<style>\n" ++
    "  /* --- antd design tokens (v5) --- */\n" ++
    "  :root \x7b\n" ++
    "    --ant-color-bg-container: #ffffff;\n" ++
    "    --ant-color-bg-layout: #f0f2f5;\n" ++
    "    --ant-color-bg-elevated: #fafafa;\n" ++
    "    --ant-color-border: #d9d9d9;\n" ++
    "    --ant-color-text: rgba(0, 0, 0, 0.88);\n" ++
    "    --ant-color-text-secondary: rgba(0, 0, 0, 0.65);\n" ++
    "    --ant-color-text-tertiary: rgba(0, 0, 0, 0.45);\n" ++
    "    --ant-color-primary: #1677ff;\n" ++
    "    --ant-font-family: -apple-system, BlinkMacSystemFont, 'Segoe UI', Roboto,\n" ++
    "                        'Helvetica Neue', Arial, 'Noto Sans', sans-serif;\n" ++
    "    --ant-font-size: 15px;\n" ++
    "    --ant-line-height: 1.5714;\n" ++
    "    --ant-border-radius: 8px;\n" ++
    "    --ant-padding-lg: 24px;\n" ++
    "    --ant-padding-md: 16px;\n" ++
    "    --ant-padding-sm: 12px;\n" ++
    "  \x7d\n" ++
    "\n" ++
    "  /* --- reset & page layout --- */\n" ++
    "  *, *::before, *::after \x7b box-sizing: border-box; \x7d\n" ++
    "\n" ++
    "  /* Warm gradient background instead of flat gray; antialiased text. */\n" ++
    "  body \x7b\n" ++
    "    font-family: var(--ant-font-family);\n" ++
    "    font-size: var(--ant-font-size);\n" ++
    "    line-height: var(--ant-line-height);\n" ++
    "    color: var(--ant-color-text);\n" ++
    "    background: linear-gradient(135deg, #f0f2f5 0%, #e8ecf1 100%);\n" ++
    "    min-height: 100vh;\n" ++
    "    margin: 0;\n" ++
    "    padding: var(--ant-padding-lg);\n" ++
    "    -webkit-font-smoothing: antialiased;\n" ++
    "    -moz-osx-font-smoothing: grayscale;\n" ++
    "  \x7d\n" ++
    "\n" ++
    "  /* White card that floats on the gradient background. */\n" ++
    "  .container \x7b\n" ++
    "    max-width: 800px;\n" ++
    "    margin: 0 auto;\n" ++
    "    background: var(--ant-color-bg-container);\n" ++
    "    border-radius: var(--ant-border-radius);\n" ++
    "    box-shadow: 0 2px 8px rgba(0, 0, 0, 0.06), 0 1px 2px rgba(0, 0, 0, 0.04);\n" ++
    "    padding: var(--ant-padding-lg);\n" ++
    "  \x7d\n" ++
    "\n" ++
    "  /* --- page title — antd Typography h1 style --- */\n" ++
    "  /* Slightly smaller than before (34px) with a thin accent underline. */\n" ++
    "  h1 \x7b\n" ++
    "    font-weight: 600;\n" ++
    "    font-size: 34px;\n" ++
    "    line-height: 1.2;\n" ++
    "    margin: 0 0 var(--ant-padding-lg) 0;\n" ++
    "    padding-bottom: var(--ant-padding-sm);\n" ++
    "    border-bottom: 2px solid var(--ant-color-primary);\n" ++
    "    color: var(--ant-color-text);\n" ++
    "  \x7d\n" ++
    "\n" ++
    "  /* --- collapse wrapper — antd Collapse container --- */\n" ++
    "  /* Soft shadow instead of a hard border — panels feel lighter. */\n" ++
    "  .collapse \x7b\n" ++
    "    background: var(--ant-color-bg-elevated);\n" ++
    "    border: none;\n" ++
    "    border-radius: var(--ant-border-radius);\n" ++
    "    box-shadow: 0 1px 4px rgba(0, 0, 0, 0.06);\n" ++
    "    overflow: hidden;\n" ++
    "  \x7d\n" ++
    "\n" ++
    "  /* --- each panel — antd Collapse.Panel --- */\n" ++
    "  details \x7b\n" ++
    "    border-bottom: 1px solid var(--ant-color-border);\n" ++
    "  \x7d\n" ++
    "\n" ++
    "  details:last-child \x7b\n" ++
    "    border-bottom: none;\n" ++
    "  \x7d\n" ++
    "\n" ++
    "  /* --- panel header — antd Collapse.Panel header --- */\n" ++
    "  /* Ellipsis on long previews; subtle gradient on hover; more padding. */\n" ++
    "  summary \x7b\n" ++
    "    display: flex;\n" ++
    "    align-items: center;\n" ++
    "    gap: 8px;\n" ++
    "    padding: 14px var(--ant-padding-md);\n" ++
    "    cursor: pointer;\n" ++
    "    font-family: 'SF Mono', 'Cascadia Code', 'Consolas', monospace;\n" ++
    "    font-weight: 400;\n" ++
    "    font-size: var(--ant-font-size);\n" ++
    "    letter-spacing: -0.01em;\n" ++
    "    color: var(--ant-color-text-secondary);\n" ++
    "    background: var(--ant-color-bg-elevated);\n" ++
    "    list-style: none;\n" ++
    "    user-select: none;\n" ++
    "    white-space: nowrap;\n" ++
    "    overflow: hidden;\n" ++
    "    text-overflow: ellipsis;\n" ++
    "    transition: background 0.25s ease;\n" ++
    "  \x7d\n" ++
    "\n" ++
    "  summary:hover \x7b\n" ++
    "    background: linear-gradient(90deg, var(--ant-color-bg-container) 0%, var(--ant-color-bg-elevated) 100%);\n" ++
    "  \x7d\n" ++
    "\n" ++
    "  /* Light blue tint on the expanded panel's summary bar. */\n" ++
    "  details[open] > summary \x7b\n" ++
    "    background: rgba(22, 119, 255, 0.04);\n" ++
    "  \x7d\n" ++
    "\n" ++
    "  /* Remove the default browser disclosure triangle. */\n" ++
    "  summary::-webkit-details-marker \x7b display: none; \x7d\n" ++
    "  summary::marker \x7b display: none; content: \"\"; \x7d\n" ++
    "\n" ++
    "  /* Custom caret — inline SVG chevron for crisp rendering at all sizes. */\n" ++
    "  summary::before \x7b\n" ++
    "    content: \"\";\n" ++
    "    display: inline-block;\n" ++
    "    width: 12px;\n" ++
    "    height: 12px;\n" ++
    "    background: url(\"data:image/svg+xml,%3Csvg xmlns='http://www.w3.org/2000/svg' viewBox='0 0 16 16'%3E%3Cpath d='M6 3l5 5-5 5' fill='none' stroke='rgba(0,0,0,0.45)' stroke-width='1.5' stroke-linecap='round' stroke-linejoin='round'/%3E%3C/svg%3E\") center / contain no-repeat;\n" ++
    "    flex-shrink: 0;\n" ++
    "    transition: transform 0.25s ease;\n" ++
    "  \x7d\n" ++
    "\n" ++
    "  details[open] > summary::before \x7b\n" ++
    "    transform: rotate(90deg);\n" ++
    "  \x7d\n" ++
    "\n" ++
    "  /* Timestamp pill — more saturated, with a thin border and shadow. */\n" ++
    "  summary .timestamp \x7b\n" ++
    "    font-family: 'SF Mono', 'Cascadia Code', 'Consolas', monospace;\n" ++
    "    font-size: 12px;\n" ++
    "    font-weight: 500;\n" ++
    "    color: var(--ant-color-primary);\n" ++
    "    background: rgba(22, 119, 255, 0.1);\n" ++
    "    border: 1px solid rgba(22, 119, 255, 0.18);\n" ++
    "    box-shadow: 0 1px 2px rgba(22, 119, 255, 0.06);\n" ++
    "    padding: 2px 8px;\n" ++
    "    border-radius: 4px;\n" ++
    "    flex-shrink: 0;\n" ++
    "  \x7d\n" ++
    "\n" ++
    "  /* --- panel body — antd Collapse.Panel content area --- */\n" ++
    "  /* Thin left accent border replaces the deep indent; roomier line-height. */\n" ++
    "  .panel-content \x7b\n" ++
    "    padding: var(--ant-padding-md) var(--ant-padding-md) var(--ant-padding-md) var(--ant-padding-md);\n" ++
    "    margin-left: var(--ant-padding-md);\n" ++
    "    border-left: 2px solid var(--ant-color-primary);\n" ++
    "    color: var(--ant-color-text-secondary);\n" ++
    "    line-height: 1.9;\n" ++
    "    background: var(--ant-color-bg-container);\n" ++
    "    animation: fadeIn 0.15s ease;\n" ++
    "  \x7d\n" ++
    "\n" ++
    "  /* Subtle fade-in when a panel opens. */\n" ++
    "  @keyframes fadeIn \x7b\n" ++
    "    from \x7b opacity: 0; transform: translateY(-4px); \x7d\n" ++
    "    to   \x7b opacity: 1; transform: translateY(0); \x7d\n" ++
    "  \x7d\n" ++
    "</style>\n" ++
    "</head>\n" ++
    "<body>\n" ++
    "<div class=\"container\">\n" ++
    "<h1>"

/-- A verbatim piece of `_HTML_TEMPLATE` (between the format holes). -/
def htmlChunk3 : String :=
    "</h1>\n" ++
    "<div class=\"collapse\">\n" ++
    ""

/-- A verbatim piece of `_HTML_TEMPLATE` (between the format holes). -/
def htmlChunk4 : String :=
    "\n" ++
    "</div>\n" ++
    "</div>\n" ++
    "</body>\n" ++
    "</html>"

/-- `_HTML_TEMPLATE.format(title=..., body=...)`: the document wrapper of
`format_doc`, with the two `title` holes and the `body` hole filled in. -/
def htmlTemplateFormat (title body : String) : String :=
  htmlChunk1 ++ title ++ htmlChunk2 ++ title ++ htmlChunk3 ++ body ++ htmlChunk4

/-- The accumulator loop of `format_doc`, carrying the current section's
anchor (`paragraph_start`) and accumulated texts (`current_texts`); on a
crossed threshold it flushes the section as an `(anchor, joined text)` pair,
and the final flush closes the last section. -/
def formatDocLoop (segs : List Segment) (paragraphStart : ℚ)
    (currentTexts : List String) : List (ℚ × String) :=
  match segs with
  | [] => [(paragraphStart, pyJoin " " currentTexts)]
  | snippet :: rest =>
    if docParagraphIntervalSecs ≤ snippet.start - paragraphStart then
      (paragraphStart, pyJoin " " currentTexts)
        :: formatDocLoop rest snippet.start [snippet.text]
    else
      formatDocLoop rest paragraphStart (currentTexts ++ [snippet.text])
termination_by structural segs

/-- The sections `format_doc` accumulates, as `(anchor, joined text)`
pairs: none for an empty transcript, otherwise the loop seeded by the first
segment (`paragraph_start is None` branch). -/
def docSections (transcript : List Segment) : List (ℚ × String) :=
  match transcript with
  | [] => []
  | snippet :: rest => formatDocLoop rest snippet.start [snippet.text]

/-- `format_doc` from `extractor.py`: group the segments into sections,
render each as a details block labelled with the anchor time in MM:SS,
return the empty string when there are no sections, and otherwise wrap the
double-newline-joined blocks in the full HTML template. -/
def format_doc (transcript : List Segment) (title : String) : String :=
  let sections := (docSections transcript).map fun sec =>
    format_details_block (seconds_to_mmss sec.1) sec.2
  if sections = [] then ""
  else htmlTemplateFormat title (pyJoin "\n\n" sections)


/-! ## Video metadata (`metadata.py`) and the persistence store

The store's source file (`storage.py`) is not part of the repository
snapshot: only its tests and callers are.  The `TranscriptStore` operations
below are therefore modelled from the specification. -/

/-- A calendar date, as parsed by `fetch_video_metadata`. -/
structure PyDate where
  year : Nat
  month : Nat
  day : Nat
  deriving DecidableEq, Repr

/-- The `VideoMetadata` dataclass of `metadata.py`. -/
structure VideoMetadata where
  video_id : String
  title : String
  channel_id : String
  channel_name : String
  channel_url : Option String
  upload_date : Option PyDate
  duration_secs : Option Int
  deriving DecidableEq, Repr

namespace TranscriptStore

/-- Modelled from the spec: a persisted Channel row (`channel_id` primary
key, name and nullable url). -/
structure ChannelRow where
  channel_id : String
  channel_name : String
  channel_url : Option String
  deriving DecidableEq, Repr

/-- Modelled from the spec: a persisted Video row (`video_id` primary key,
foreign key to Channel, title, date, duration, caption language fields,
`is_generated`). -/
structure VideoRow where
  video_id : String
  channel_id : String
  title : String
  upload_date : Option PyDate
  duration_secs : Option Int
  language : String
  language_code : String
  is_generated : Bool
  deriving DecidableEq, Repr

/-- Modelled from the spec: a persisted StoredSegment row (`video_id`
foreign key, 0-based `seq`, text and timing). -/
structure SegmentRow where
  video_id : String
  seq : Nat
  text : String
  start : ℚ
  duration : ℚ
  deriving DecidableEq, Repr

/-- Modelled from the spec: the contents of one opened store — the three
row tables. -/
structure StoreState where
  channels : List ChannelRow
  videos : List VideoRow
  segments : List SegmentRow
  deriving DecidableEq, Repr

/-- Modelled from the spec: the record returned by `save_transcript`, the
video id plus the `already_existed` flag. -/
structure SaveResult where
  video_id : String
  already_existed : Bool
  deriving DecidableEq, Repr

/-- Modelled from the spec: `has(video_id)` — does a Video row with this id
exist. -/
def has_video (st : StoreState) (videoId : String) : Bool :=
  st.videos.any fun v => v.video_id = videoId

/-- Modelled from the spec: `save(video_id, segments, metadata)`.  If the
Video row already exists this is a no-op reporting `already_existed=true`;
otherwise insert-or-reuse the Channel row (first-write-wins), insert the
Video row, and insert one StoredSegment row per snippet with sequence
numbers `0..n-1` in input order. -/
def save_transcript (st : StoreState) (videoId : String) (t : TranscriptData)
    (meta : VideoMetadata) : SaveResult × StoreState :=
  if has_video st videoId then
    (⟨videoId, true⟩, st)
  else
    let channels :=
      if st.channels.any (fun c => c.channel_id = meta.channel_id) then st.channels
      else st.channels
        ++ [⟨meta.channel_id, meta.channel_name, meta.channel_url⟩]
    let videoRow : VideoRow :=
      ⟨videoId, meta.channel_id, meta.title, meta.upload_date, meta.duration_secs,
        t.language, t.language_code, t.is_generated⟩
    let segRows := t.snippets.enum.map fun p =>
      SegmentRow.mk videoId p.1 p.2.text p.2.start p.2.duration
    (⟨videoId, false⟩,
      ⟨channels, st.videos ++ [videoRow], st.segments ++ segRows⟩)

/-- Modelled from the spec: `get_segments(video_id)` — the stored segment
rows of this video in `seq` (= insertion) order, empty for an unknown id. -/
def get_transcript (st : StoreState) (videoId : String) : List SegmentRow :=
  st.segments.filter fun r => r.video_id = videoId

end TranscriptStore

/-! ## The orchestrator `extract` -/

/-- An error escaping `extract`: either the plain `ValueError` raised for an
unknown format (a message with no `http_status` attribute and outside the
`TranscriptError` hierarchy), or a `TranscriptError`. -/
inductive ExtractError
  | valueError (msg : String)
  | transcriptErr (e : TranscriptErr)
  deriving DecidableEq, Repr

/-- The `str | dict` return value of `extract`. -/
inductive ExtractResult
  | text (s : String)
  | json (j : JsonDoc)
  deriving DecidableEq, Repr

/-- Python `repr` of a string, as used by the f-string `\x7bfmt!r\x7d` in the
`ValueError` message (for strings without quotes or escapes, which is the
shape of a format name). -/
def pyReprStr (s : String) : String := "'" ++ s ++ "'"

/-- The `ValueError` message of `extract` for an unknown format. -/
def unknownFormatMessage (fmt : String) : String :=
  "Unknown format " ++ pyReprStr fmt ++ "; expected 'text', 'json', or 'doc'"

/-- `extract` from `extractor.py`: validate `fmt` first, then parse the
URL/id, then fetch; when `save` is set, fetch metadata (its failure is a
`MetadataFetchError`) and save through the store before formatting; finally
render the requested format, the doc title coming from the metadata when
`save` was requested.  The two black-box collaborators are supplied as the
`outcome` and `metaOutcome` parameters, and the opened store as `st`; the
result carries the store contents after the call. -/
def extract (urlOrId : String) (languages : Option (List String)) (fmt : String)
    (save : Bool) (outcome : FetchOutcome)
    (metaOutcome : Except String VideoMetadata)
    (st : TranscriptStore.StoreState) :
    Except ExtractError (ExtractResult × TranscriptStore.StoreState) :=
  if ¬ (fmt = "text" ∨ fmt = "json" ∨ fmt = "doc") then
    Except.error (ExtractError.valueError (unknownFormatMessage fmt))
  else
    match parse_video_id urlOrId with
    | Except.error e => Except.error (ExtractError.transcriptErr e)
    | Except.ok videoId =>
      match get_transcript videoId languages outcome with
      | Except.error e => Except.error (ExtractError.transcriptErr e)
      | Except.ok t =>
        let afterSave : Except ExtractError (String × TranscriptStore.StoreState) :=
          if save then
            match metaOutcome with
            | Except.error reason =>
              Except.error (ExtractError.transcriptErr (metadataFetchError videoId reason))
            | Except.ok meta =>
              Except.ok (meta.title, (TranscriptStore.save_transcript st videoId t meta).2)
          else Except.ok ("Transcript", st)
        match afterSave with
        | Except.error e => Except.error e
        | Except.ok (docTitle, stAfter) =>
          if fmt = "json" then
            Except.ok (ExtractResult.json (format_json t.snippets videoId), stAfter)
          else if fmt = "doc" then
            Except.ok (ExtractResult.text (format_doc t.snippets docTitle), stAfter)
          else
            Except.ok (ExtractResult.text (format_text t.snippets), stAfter)


/-! ## Lemmas about `pyJoin` -/

theorem pyJoin_foldl_shift (sep : String) (rest : List String) :
    ∀ a b : String,
      rest.foldl (fun acc t => acc ++ sep ++ t) (a ++ b)
        = a ++ rest.foldl (fun acc t => acc ++ sep ++ t) b := by
  induction rest with
  | nil => intro a b; rfl
  | cons t r ih =>
    intro a b
    simp only [List.foldl_cons]
    have e : a ++ b ++ sep ++ t = a ++ (b ++ sep ++ t) := by
      simp [String.append_assoc]
    rw [e]
    exact ih a (b ++ sep ++ t)

theorem pyJoin_cons_cons (sep x y : String) (rest : List String) :
    pyJoin sep (x :: y :: rest) = x ++ sep ++ pyJoin sep (y :: rest) := by
  show (y :: rest).foldl (fun acc t => acc ++ sep ++ t) x
      = x ++ sep ++ rest.foldl (fun acc t => acc ++ sep ++ t) y
  simp only [List.foldl_cons]
  have h := pyJoin_foldl_shift sep rest (x ++ sep) y
  have e : x ++ sep ++ y = (x ++ sep) ++ y := rfl
  rw [e, h, String.append_assoc]

theorem pyJoin_append_singleton (sep t : String) (ts : List String) (h : ts ≠ []) :
    pyJoin sep (ts ++ [t]) = pyJoin sep ts ++ sep ++ t := by
  match ts, h with
  | x :: rest, _ =>
    show (rest ++ [t]).foldl (fun acc u => acc ++ sep ++ u) x
        = rest.foldl (fun acc u => acc ++ sep ++ u) x ++ sep ++ t
    rw [List.foldl_append]
    rfl

/-! ## The spec-level grouping recurrence (for the document formatter) -/

/-- The grouping algorithm as the specification states it, as a recurrence
on the segment list: a lone segment is one section anchored at its own
start; when the next segment's start is at least 30 seconds past the
current anchor the current section closes and a new one opens at that
segment; otherwise the next segment's text is appended, space-joined, to
the current section (which keeps its anchor). -/
def docSectionsSpec : List Segment → List (ℚ × String)
  | [] => []
  | [s] => [(s.start, s.text)]
  | s0 :: s1 :: rest =>
    if docParagraphIntervalSecs ≤ s1.start - s0.start then
      (s0.start, s0.text) :: docSectionsSpec (s1 :: rest)
    else
      docSectionsSpec
        ({ text := s0.text ++ " " ++ s1.text, start := s0.start,
           duration := s0.duration } :: rest)
termination_by l => l.length

theorem formatDocLoop_eq_spec (rest : List Segment) :
    ∀ (anchor : ℚ) (texts : List String) (d : ℚ), texts ≠ [] →
      formatDocLoop rest anchor texts
        = docSectionsSpec (Segment.mk (pyJoin " " texts) anchor d :: rest) := by
  induction rest with
  | nil =>
    intro anchor texts d _
    simp [formatDocLoop, docSectionsSpec]
  | cons snippet rest ih =>
    intro anchor texts d hne
    rw [show formatDocLoop (snippet :: rest) anchor texts
        = if docParagraphIntervalSecs ≤ snippet.start - anchor then
            (anchor, pyJoin " " texts)
              :: formatDocLoop rest snippet.start [snippet.text]
          else formatDocLoop rest anchor (texts ++ [snippet.text]) from rfl]
    by_cases hc : docParagraphIntervalSecs ≤ snippet.start - anchor
    · rw [if_pos hc]
      rw [ih snippet.start [snippet.text] snippet.duration (by simp)]
      rw [docSectionsSpec, if_pos hc]
      rfl
    · rw [if_neg hc]
      rw [ih anchor (texts ++ [snippet.text]) d (by simp : texts ++ [snippet.text] ≠ [])]
      rw [docSectionsSpec, if_neg hc,
        pyJoin_append_singleton " " snippet.text texts hne]

theorem docSections_eq_spec (transcript : List Segment) :
    docSections transcript = docSectionsSpec transcript := by
  match transcript with
  | [] => simp [docSections, docSectionsSpec]
  | snippet :: rest =>
    rw [show docSections (snippet :: rest)
        = formatDocLoop rest snippet.start [snippet.text] from rfl]
    rw [formatDocLoop_eq_spec rest snippet.start [snippet.text] snippet.duration (by simp)]
    rfl


/-! ## Spec-side MM:SS formula -/

/-- The specification's zero-padding: the decimal representation of a
count, left-padded with zeros to at least two characters. -/
def zeroPad2 (n : Nat) : String :=
  if (Nat.repr n).length < 2 then "0" ++ Nat.repr n else Nat.repr n

theorem pad2_ofNat (k : Nat) : pad2 (Int.ofNat k) = zeroPad2 k := by
  have hts : toString (Int.ofNat k) = Nat.repr k := rfl
  simp only [pad2, zeroPad2, hts]

theorem pyInt_eq_floor (s : ℚ) (h : 0 ≤ s) : pyInt s = Int.floor s := by
  simp [pyInt, not_lt.mpr h]

theorem fdiv_ofNat_ofNat (m n : Nat) :
    Int.fdiv (Int.ofNat m) (Int.ofNat n) = Int.ofNat (m / n) := by
  cases m with
  | zero => simp [Int.fdiv, Nat.zero_div]
  | succ m => rfl

theorem fmod_ofNat_ofNat (m n : Nat) :
    Int.fmod (Int.ofNat m) (Int.ofNat n) = Int.ofNat (m % n) := by
  cases m with
  | zero => simp [Int.fmod, Nat.zero_mod]
  | succ m => rfl


theorem fdiv_ofNat_60 (m : Nat) : Int.fdiv (Int.ofNat m) 60 = Int.ofNat (m / 60) :=
  fdiv_ofNat_ofNat m 60

theorem fmod_ofNat_60 (m : Nat) : Int.fmod (Int.ofNat m) 60 = Int.ofNat (m % 60) :=
  fmod_ofNat_ofNat m 60

/-! ## Claim theorems -/

/-- C1: `format_doc` opens the first section anchored at the first
segment's start; each subsequent segment closes the current section and
opens a new one anchored at itself exactly when its start minus the current
anchor is at least 30 seconds, and otherwise its text is appended to the
current section space-joined, the last open section being flushed at end of
input (the recurrence `docSectionsSpec`); in particular segments with
starts 0, 10, 31 produce exactly two sections, anchored at labels 00:00
and 00:31. -/
theorem c1_format_doc_grouping :
    (∀ transcript : List Segment, docSections transcript = docSectionsSpec transcript)
    ∧ (∀ (t1 t2 t3 : String) (d1 d2 d3 : ℚ),
        docSections [Segment.mk t1 0 d1, Segment.mk t2 10 d2, Segment.mk t3 31 d3]
          = [(0, t1 ++ " " ++ t2), (31, t3)]
        ∧ (docSections [Segment.mk t1 0 d1, Segment.mk t2 10 d2, Segment.mk t3 31 d3]).map
            (fun sec => seconds_to_mmss sec.1) = ["00:00", "00:31"]) := by
  constructor
  · exact docSections_eq_spec
  · intro t1 t2 t3 d1 d2 d3
    have h1 : ¬ docParagraphIntervalSecs ≤ (10 : ℚ) - 0 := by
      norm_num [docParagraphIntervalSecs]
    have h2 : docParagraphIntervalSecs ≤ (31 : ℚ) - 0 := by
      norm_num [docParagraphIntervalSecs]
    have hsec : docSections [Segment.mk t1 0 d1, Segment.mk t2 10 d2, Segment.mk t3 31 d3]
        = [(0, t1 ++ " " ++ t2), (31, t3)] := by
      show formatDocLoop [Segment.mk t2 10 d2, Segment.mk t3 31 d3] 0 [t1] = _
      rw [show formatDocLoop [Segment.mk t2 10 d2, Segment.mk t3 31 d3] 0 [t1]
          = if docParagraphIntervalSecs ≤ (10 : ℚ) - 0 then
              (0, pyJoin " " [t1]) :: formatDocLoop [Segment.mk t3 31 d3] 10 [t2]
            else formatDocLoop [Segment.mk t3 31 d3] 0 [t1, t2] from rfl]
      rw [if_neg h1]
      rw [show formatDocLoop [Segment.mk t3 31 d3] 0 [t1, t2]
          = if docParagraphIntervalSecs ≤ (31 : ℚ) - 0 then
              (0, pyJoin " " [t1, t2]) :: formatDocLoop [] 31 [t3]
            else formatDocLoop [] 0 [t1, t2, t3] from rfl]
      rw [if_pos h2]
      rfl
    exact ⟨hsec, by rw [hsec]; rfl⟩

/-- C5: for every non-negative number of seconds, the MM:SS label is the
zero-padded truncated minutes (`int(s) // 60`, not capped at 59) and the
zero-padded remainder seconds (`int(s) % 60`); 92.0 yields 01:32 and
3661.0 yields 61:01. -/
theorem c5_seconds_to_mmss (s : ℚ) (h : 0 ≤ s) :
    seconds_to_mmss s
      = zeroPad2 ((Int.floor s).toNat / 60) ++ ":" ++ zeroPad2 ((Int.floor s).toNat % 60)
    ∧ seconds_to_mmss 92 = "01:32" ∧ seconds_to_mmss 3661 = "61:01" := by
  refine ⟨?_, rfl, rfl⟩
  have hf : 0 ≤ Int.floor s := Int.floor_nonneg.mpr h
  have hn : Int.floor s = Int.ofNat (Int.floor s).toNat := (Int.toNat_of_nonneg hf).symm
  show pad2 (Int.fdiv (pyInt s) 60) ++ ":" ++ pad2 (Int.fmod (pyInt s) 60) = _
  rw [pyInt_eq_floor s h, hn, fdiv_ofNat_60, fmod_ofNat_60, pad2_ofNat, pad2_ofNat]
  rfl

/-- Witness for C5 at the concrete input 92.0. -/
theorem c5_seconds_to_mmss_witness :
    (0 : ℚ) ≤ 92
    ∧ seconds_to_mmss 92
        = zeroPad2 ((Int.floor (92 : ℚ)).toNat / 60) ++ ":"
            ++ zeroPad2 ((Int.floor (92 : ℚ)).toNat % 60) :=
  ⟨by norm_num, (c5_seconds_to_mmss 92 (by norm_num)).1⟩

/-- C9: formatting an empty segment sequence yields an empty result in
every mode and never an error: `format_text` gives the empty string,
`format_doc` gives empty overall output (no shell document), and
`format_json` gives a record with zero segments. -/
theorem c9_empty_formats :
    format_text [] = "" ∧ (∀ title, format_doc [] title = "")
    ∧ (∀ videoId, format_json [] videoId = JsonDoc.mk videoId 0 []) :=
  ⟨rfl, fun _ => rfl, fun _ => rfl⟩

/-- C3 counterexample: the generic catch-all upstream failure is mapped by
`get_transcript` to the base `TranscriptError` whose classification is 500,
not the 502 class the claim states. -/
theorem c3_generic_upstream_counterexample :
    get_transcript "dQw4w9WgXcQ" none (FetchOutcome.couldNotRetrieve "boom")
      = Except.error (TranscriptErr.mk TEKind.base "boom" 500)
    ∧ (500 : Nat) ≠ 502 :=
  ⟨rfl, by decide⟩

/-- C3 (amended): when the caption fetch client fails with its generic
catch-all failure, `get_transcript` raises the base transcript error
carrying the upstream message, whose classification is 500-class, distinct
from the 404/400 classes of the three specific errors and from 502. -/
theorem c3_generic_upstream_maps_to_base_500 :
    ∀ (videoId : String) (languages : Option (List String)) (msg : String),
      get_transcript videoId languages (FetchOutcome.couldNotRetrieve msg)
        = Except.error (transcriptError msg)
      ∧ (transcriptError msg).http_status = 500
      ∧ (transcriptError msg).kind = TEKind.base
      ∧ (transcriptError msg).http_status ≠ 404
      ∧ (transcriptError msg).http_status ≠ 400
      ∧ (transcriptError msg).http_status ≠ 502 := by
  intro videoId languages msg
  exact ⟨rfl, rfl, rfl, show (500 : Nat) ≠ 404 by decide,
    show (500 : Nat) ≠ 400 by decide, show (500 : Nat) ≠ 502 by decide⟩


/-! ## Error-shape lemmas for `parse_video_id` and `get_transcript` -/

theorem videoNotFoundError_message_ne (vid : String) :
    (videoNotFoundError vid).message ≠ "" := by
  intro hcon
  have hcon2 : ("Video not found: " ++ vid) = "" := hcon
  have hlen := congrArg String.length hcon2
  rw [String.length_append] at hlen
  have h17 : ("Video not found: " : String).length = 17 := rfl
  rw [h17] at hlen
  simp at hlen

theorem parseCore_error_shape (s : List Char) (e : TranscriptErr)
    (h : parseCore s = Except.error e) : e = videoNotFoundError (String.mk s) := by
  unfold parseCore at h
  cases hm1 : reSearch tryAt1 s with
  | some id => rw [hm1] at h; simp at h
  | none =>
    rw [hm1] at h
    cases hm2 : reSearch tryAt2 s with
    | some id => rw [hm2] at h; simp at h
    | none =>
      rw [hm2] at h
      cases hm3 : reSearch tryAt3 s with
      | some id => rw [hm3] at h; simp at h
      | none =>
        rw [hm3] at h
        cases hb : bareIdMatch s with
        | true => rw [hb] at h; simp at h
        | false =>
          rw [hb] at h
          simp only [Bool.false_eq_true, if_false, Except.error.injEq] at h
          exact h.symm

theorem parse_video_id_error_shape (input : String) (e : TranscriptErr)
    (h : parse_video_id input = Except.error e) :
    e = videoNotFoundError (String.mk (pyStrip input.data)) :=
  parseCore_error_shape (pyStrip input.data) e h

theorem get_transcript_error_status (videoId : String)
    (languages : Option (List String)) (outcome : FetchOutcome) (e : TranscriptErr)
    (h : get_transcript videoId languages outcome = Except.error e) :
    e.http_status = 400 ∨ e.http_status = 404 ∨ e.http_status = 500 := by
  cases outcome with
  | success t => simp [get_transcript] at h
  | invalidVideoId =>
    simp only [get_transcript, Except.error.injEq] at h
    rw [← h]; right; left; rfl
  | videoUnavailable =>
    simp only [get_transcript, Except.error.injEq] at h
    rw [← h]; right; left; rfl
  | transcriptsDisabled =>
    simp only [get_transcript, Except.error.injEq] at h
    rw [← h]; right; left; rfl
  | noTranscriptFound =>
    simp only [get_transcript, Except.error.injEq] at h
    rw [← h]; left; rfl
  | couldNotRetrieve msg =>
    simp only [get_transcript, Except.error.injEq] at h
    rw [← h]; right; right; rfl


/-- Whether an error escaping `extract` belongs to the typed
`TranscriptError` taxonomy (and so carries an `http_status`
classification). -/
def inTranscriptErrorTaxonomy : ExtractError → Bool
  | ExtractError.transcriptErr _ => true
  | ExtractError.valueError _ => false

/-- C7: if `fmt` is not one of text, json, doc, `extract` fails with the
input-validation `ValueError` before any id parsing, fetching, metadata
lookup or store access — the result is this error for every `url_or_id`,
language list, save flag, fetch-client behaviour, metadata-client
behaviour and store state. -/
theorem c7_invalid_format_fails_fast :
    ∀ (urlOrId : String) (languages : Option (List String)) (fmt : String) (save : Bool)
      (outcome : FetchOutcome) (metaOutcome : Except String VideoMetadata)
      (st : TranscriptStore.StoreState),
      fmt ≠ "text" → fmt ≠ "json" → fmt ≠ "doc" →
      extract urlOrId languages fmt save outcome metaOutcome st
        = Except.error (ExtractError.valueError (unknownFormatMessage fmt)) := by
  intro urlOrId languages fmt save outcome metaOutcome st h1 h2 h3
  have hno : ¬ (fmt = "text" ∨ fmt = "json" ∨ fmt = "doc") := by
    rintro (h | h | h)
    · exact h1 h
    · exact h2 h
    · exact h3 h
  unfold extract
  rw [if_pos hno]

/-- Witness for C7 at the concrete invalid format "xml" with an unparseable
url and failing collaborators. -/
theorem c7_invalid_format_fails_fast_witness :
    ("xml" : String) ≠ "text"
    ∧ extract "not-a-url" none "xml" true (FetchOutcome.couldNotRetrieve "net down")
        (Except.error "meta down") (TranscriptStore.StoreState.mk [] [] [])
        = Except.error (ExtractError.valueError (unknownFormatMessage "xml")) :=
  ⟨by decide,
    c7_invalid_format_fails_fast "not-a-url" none "xml" true
      (FetchOutcome.couldNotRetrieve "net down") (Except.error "meta down")
      (TranscriptStore.StoreState.mk [] [] []) (by decide) (by decide) (by decide)⟩

/-- C4 counterexample: `extract` with an invalid format raises a plain
`ValueError` that carries only a message — it is outside the typed
`TranscriptError` taxonomy and has no status classification. -/
theorem c4_untyped_value_error_counterexample :
    extract "dQw4w9WgXcQ" none "xml" false
        (FetchOutcome.success (TranscriptData.mk [] "English" "en" false))
        (Except.error "") (TranscriptStore.StoreState.mk [] [] [])
      = Except.error (ExtractError.valueError (unknownFormatMessage "xml"))
    ∧ inTranscriptErrorTaxonomy (ExtractError.valueError (unknownFormatMessage "xml"))
        = false :=
  ⟨rfl, rfl⟩

/-- C4 (amended): errors raised by `parse_video_id` and `get_transcript`
are typed `TranscriptError`s carrying a message and an HTTP-style status
classification, and every error escaping `extract` is either such a typed
error (status 400, 404, 500 or 502) or the plain `ValueError` for an
invalid format, which carries only a message and lies outside the typed
taxonomy. -/
theorem c4_error_taxonomy :
    (∀ (input : String) (e : TranscriptErr),
        parse_video_id input = Except.error e →
          e.http_status = 404 ∧ e.message ≠ "")
    ∧ (∀ (videoId : String) (languages : Option (List String)) (outcome : FetchOutcome)
        (e : TranscriptErr),
        get_transcript videoId languages outcome = Except.error e →
          e.http_status = 400 ∨ e.http_status = 404 ∨ e.http_status = 500)
    ∧ (∀ (urlOrId : String) (languages : Option (List String)) (fmt : String)
        (save : Bool) (outcome : FetchOutcome) (metaOutcome : Except String VideoMetadata)
        (st : TranscriptStore.StoreState) (err : ExtractError),
        extract urlOrId languages fmt save outcome metaOutcome st = Except.error err →
          (∃ e, err = ExtractError.transcriptErr e
            ∧ (e.http_status = 400 ∨ e.http_status = 404 ∨ e.http_status = 500
                ∨ e.http_status = 502))
          ∨ (err = ExtractError.valueError (unknownFormatMessage fmt)
              ∧ ¬ (fmt = "text" ∨ fmt = "json" ∨ fmt = "doc"))) := by
  refine ⟨?_, ?_, ?_⟩
  · intro input e h
    rw [parse_video_id_error_shape input e h]
    exact ⟨rfl, videoNotFoundError_message_ne _⟩
  · exact get_transcript_error_status
  · intro urlOrId languages fmt save outcome metaOutcome st err h
    unfold extract at h
    by_cases hfmt : fmt = "text" ∨ fmt = "json" ∨ fmt = "doc"
    · rw [if_neg (not_not.mpr hfmt)] at h
      left
      cases hp : parse_video_id urlOrId with
      | error e =>
        rw [hp] at h
        simp only [Except.error.injEq] at h
        refine ⟨e, h.symm, ?_⟩
        right; left
        rw [parse_video_id_error_shape urlOrId e hp]
        rfl
      | ok videoId =>
        rw [hp] at h
        dsimp only at h
        cases hg : get_transcript videoId languages outcome with
        | error e =>
          rw [hg] at h
          simp only [Except.error.injEq] at h
          refine ⟨e, h.symm, ?_⟩
          rcases get_transcript_error_status videoId languages outcome e hg with
            h4 | h4 | h4
          · exact Or.inl h4
          · exact Or.inr (Or.inl h4)
          · exact Or.inr (Or.inr (Or.inl h4))
        | ok t =>
          rw [hg] at h
          dsimp only at h
          cases save with
          | false =>
            simp only [if_neg (Bool.false_ne_true)] at h
            by_cases hj : fmt = "json"
            · rw [if_pos hj] at h; simp at h
            · rw [if_neg hj] at h
              by_cases hd : fmt = "doc"
              · rw [if_pos hd] at h; simp at h
              · rw [if_neg hd] at h; simp at h
          | true =>
            rw [if_pos rfl] at h
            cases metaOutcome with
            | error reason =>
              dsimp only at h
              exact ⟨metadataFetchError videoId reason, (Except.error.inj h).symm,
                Or.inr (Or.inr (Or.inr rfl))⟩
            | ok meta =>
              dsimp only at h
              by_cases hj : fmt = "json"
              · rw [if_pos hj] at h; simp at h
              · rw [if_neg hj] at h
                by_cases hd : fmt = "doc"
                · rw [if_pos hd] at h; simp at h
                · rw [if_neg hd] at h; simp at h
    · rw [if_pos hfmt] at h
      simp only [Except.error.injEq] at h
      exact Or.inr ⟨h.symm, hfmt⟩

/-- Witness for C4 at concrete inputs: the parse error for "not-a-url"
carries the 404 classification and a nonempty message. -/
theorem c4_error_taxonomy_witness :
    parse_video_id "not-a-url" = Except.error (videoNotFoundError "not-a-url")
    ∧ (videoNotFoundError "not-a-url").http_status = 404
    ∧ (videoNotFoundError "not-a-url").message ≠ "" :=
  ⟨rfl, (c4_error_taxonomy.1 "not-a-url" (videoNotFoundError "not-a-url") rfl).1,
    (c4_error_taxonomy.1 "not-a-url" (videoNotFoundError "not-a-url") rfl).2⟩


/-! ## Lines of a string (for the plain-text rendering claims) -/

/-- The lines of a character list: the pieces between newline characters
(one piece more than there are newlines). -/
def splitOnNl : List Char → List (List Char)
  | [] => [[]]
  | c :: cs =>
    if c = '\n' then [] :: splitOnNl cs
    else
      match splitOnNl cs with
      | [] => [[c]]
      | p :: ps => (c :: p) :: ps

theorem splitOnNl_ne_nil (l : List Char) : splitOnNl l ≠ [] := by
  match l with
  | [] => simp [splitOnNl]
  | c :: cs =>
    rw [splitOnNl]
    by_cases hc : c = '\n'
    · simp [hc]
    · rw [if_neg hc]
      cases splitOnNl cs <;> simp

theorem splitOnNl_no_newline (l : List Char) (h : '\n' ∉ l) : splitOnNl l = [l] := by
  induction l with
  | nil => rfl
  | cons c cs ih =>
    have hc : c ≠ '\n' := fun hcon => h (hcon ▸ List.mem_cons_self c cs)
    have hcs : '\n' ∉ cs := fun hcon => h (List.mem_cons_of_mem c hcon)
    rw [splitOnNl, if_neg hc, ih hcs]

theorem splitOnNl_append_newline (x rest : List Char) (h : '\n' ∉ x) :
    splitOnNl (x ++ '\n' :: rest) = x :: splitOnNl rest := by
  induction x with
  | nil => simp [splitOnNl]
  | cons c cs ih =>
    have hc : c ≠ '\n' := fun hcon => h (hcon ▸ List.mem_cons_self c cs)
    have hcs : '\n' ∉ cs := fun hcon => h (List.mem_cons_of_mem c hcon)
    rw [List.cons_append, splitOnNl, if_neg hc, ih hcs]

theorem splitOnNl_pyJoin (texts : List String) (hne : texts ≠ [])
    (hnl : ∀ t ∈ texts, '\n' ∉ t.data) :
    splitOnNl (pyJoin "\n" texts).data = texts.map String.data := by
  induction texts with
  | nil => exact absurd rfl hne
  | cons x rest ih =>
    cases rest with
    | nil =>
      show splitOnNl x.data = [x.data]
      exact splitOnNl_no_newline x.data (hnl x (List.mem_cons_self x []))
    | cons y rest2 =>
      rw [pyJoin_cons_cons]
      have hdata : (x ++ "\n" ++ pyJoin "\n" (y :: rest2)).data
          = x.data ++ '\n' :: (pyJoin "\n" (y :: rest2)).data := by
        rw [String.data_append, String.data_append]
        simp
      rw [hdata,
        splitOnNl_append_newline x.data (pyJoin "\n" (y :: rest2)).data
          (hnl x (List.mem_cons_self x (y :: rest2))),
        ih (by simp) (fun t ht => hnl t (List.mem_cons_of_mem x ht))]
      rfl

/-- C6 counterexample: a single segment whose text itself contains a
newline renders as two lines, so the rendering of one segment does not
contain exactly one line. -/
theorem c6_lines_counterexample :
    (splitOnNl (format_text [Segment.mk "a\nb" 0 0]).data).length = 2
    ∧ (2 : Nat) ≠ 1 :=
  ⟨rfl, by decide⟩

/-- C6 (amended): the plain-text rendering equals the segments' texts
joined by single newlines in input order, ignoring start and duration
entirely; when additionally no segment text contains a newline and there
is at least one segment, splitting the rendering on newlines yields
exactly the n texts in input order — n lines, with no extra (trailing)
newline added. -/
theorem c6_format_text_lines (segs : List Segment) (h1 : segs ≠ [])
    (h2 : ∀ seg ∈ segs, '\n' ∉ seg.text.data) :
    format_text segs = pyJoin "\n" (segs.map Segment.text)
    ∧ splitOnNl (format_text segs).data = segs.map (fun seg => seg.text.data)
    ∧ format_text segs = format_text (segs.map fun seg => Segment.mk seg.text 0 0) := by
  refine ⟨rfl, ?_, ?_⟩
  · have := splitOnNl_pyJoin (segs.map Segment.text) (by simpa using h1)
      (by intro t ht
          obtain ⟨seg, hseg, rfl⟩ := List.mem_map.mp ht
          exact h2 seg hseg)
    rw [show format_text segs = pyJoin "\n" (segs.map Segment.text) from rfl, this,
      List.map_map]
    rfl
  · show pyJoin "\n" (segs.map Segment.text)
        = pyJoin "\n" ((segs.map fun seg => Segment.mk seg.text 0 0).map Segment.text)
    rw [List.map_map]
    rfl

/-- Witness for C6 at two concrete newline-free segments. -/
theorem c6_format_text_lines_witness :
    ([Segment.mk "hello" 0 1, Segment.mk "world" 2 1] : List Segment) ≠ []
    ∧ splitOnNl (format_text [Segment.mk "hello" 0 1, Segment.mk "world" 2 1]).data
        = ["hello".data, "world".data] :=
  ⟨by simp,
    (c6_format_text_lines [Segment.mk "hello" 0 1, Segment.mk "world" 2 1] (by simp)
      (by decide)).2.1⟩


/-! ## Store lemmas and the idempotent-save claim -/

namespace TranscriptStore

/-- The segment rows `save_transcript` writes for one video. -/
def segmentRowsFor (videoId : String) (t : TranscriptData) : List SegmentRow :=
  t.snippets.enum.map fun p => SegmentRow.mk videoId p.1 p.2.text p.2.start p.2.duration

theorem save_transcript_not_existing (st : StoreState) (videoId : String)
    (t : TranscriptData) (meta : VideoMetadata) (h1 : has_video st videoId = false) :
    save_transcript st videoId t meta
      = (⟨videoId, false⟩,
         StoreState.mk
           (if st.channels.any (fun c => c.channel_id = meta.channel_id) then st.channels
            else st.channels ++ [⟨meta.channel_id, meta.channel_name, meta.channel_url⟩])
           (st.videos ++ [VideoRow.mk videoId meta.channel_id meta.title meta.upload_date
              meta.duration_secs t.language t.language_code t.is_generated])
           (st.segments ++ segmentRowsFor videoId t)) := by
  unfold save_transcript
  rw [h1]
  simp [segmentRowsFor]

theorem save_transcript_existing (st : StoreState) (videoId : String)
    (t : TranscriptData) (meta : VideoMetadata) (h : has_video st videoId = true) :
    save_transcript st videoId t meta = (⟨videoId, true⟩, st) := by
  unfold save_transcript
  rw [h]
  simp

theorem filter_segmentRowsFor (videoId : String) (t : TranscriptData) :
    (segmentRowsFor videoId t).filter (fun r => r.video_id = videoId)
      = segmentRowsFor videoId t := by
  apply List.filter_eq_self.mpr
  intro r hr
  obtain ⟨p, hp, rfl⟩ := List.mem_map.mp hr
  simp

/-- C2: saving the same video twice (into a store that does not yet hold
it) reports `already_existed=false` then `true`; the second save performs
no writes (the store state is unchanged, no rows duplicated), and the
stored segment rows after one or two saves are the same n rows, one per
input segment. -/
theorem c2_idempotent_save (st : StoreState) (videoId : String)
    (t : TranscriptData) (meta : VideoMetadata)
    (h1 : has_video st videoId = false)
    (h2 : get_transcript st videoId = []) :
    (save_transcript st videoId t meta).1.already_existed = false
    ∧ (save_transcript (save_transcript st videoId t meta).2 videoId t meta).1.already_existed
        = true
    ∧ (save_transcript (save_transcript st videoId t meta).2 videoId t meta).2
        = (save_transcript st videoId t meta).2
    ∧ get_transcript (save_transcript st videoId t meta).2 videoId
        = segmentRowsFor videoId t
    ∧ (get_transcript (save_transcript st videoId t meta).2 videoId).length
        = t.snippets.length := by
  have hsave := save_transcript_not_existing st videoId t meta h1
  have hhas2 : has_video (save_transcript st videoId t meta).2 videoId = true := by
    rw [hsave]
    unfold has_video
    simp
  have hget : get_transcript (save_transcript st videoId t meta).2 videoId
      = segmentRowsFor videoId t := by
    rw [hsave]
    unfold get_transcript
    unfold get_transcript at h2
    simp only [List.filter_append, h2, List.nil_append, filter_segmentRowsFor]
  have hsave2 := save_transcript_existing (save_transcript st videoId t meta).2 videoId
    t meta hhas2
  refine ⟨by rw [hsave], by rw [hsave2], by rw [hsave2], hget, ?_⟩
  rw [hget]
  unfold segmentRowsFor
  simp [List.enum_length]

/-- Witness for C2 at a concrete fresh store and three sample segments. -/
theorem c2_idempotent_save_witness :
    has_video (StoreState.mk [] [] []) "dQw4w9WgXcQ" = false
    ∧ (save_transcript (StoreState.mk [] [] []) "dQw4w9WgXcQ"
        (TranscriptData.mk [Segment.mk "Never gonna give you up" 0 (5/2),
          Segment.mk "Never gonna let you down" (5/2) (5/2)] "English" "en" false)
        (VideoMetadata.mk "dQw4w9WgXcQ" "Never Gonna Give You Up"
          "UCuAXFkgsw1L7xaCfnd5JJOw" "Rick Astley" none none (some 213))).1.already_existed
      = false
    ∧ (get_transcript
        (save_transcript (StoreState.mk [] [] []) "dQw4w9WgXcQ"
          (TranscriptData.mk [Segment.mk "Never gonna give you up" 0 (5/2),
            Segment.mk "Never gonna let you down" (5/2) (5/2)] "English" "en" false)
          (VideoMetadata.mk "dQw4w9WgXcQ" "Never Gonna Give You Up"
            "UCuAXFkgsw1L7xaCfnd5JJOw" "Rick Astley" none none (some 213))).2
        "dQw4w9WgXcQ").length = 2 := by
  refine ⟨rfl, ?_, ?_⟩
  · exact (c2_idempotent_save (StoreState.mk [] [] []) "dQw4w9WgXcQ"
      (TranscriptData.mk [Segment.mk "Never gonna give you up" 0 (5/2),
        Segment.mk "Never gonna let you down" (5/2) (5/2)] "English" "en" false)
      (VideoMetadata.mk "dQw4w9WgXcQ" "Never Gonna Give You Up"
        "UCuAXFkgsw1L7xaCfnd5JJOw" "Rick Astley" none none (some 213)) rfl rfl).1
  · exact (c2_idempotent_save (StoreState.mk [] [] []) "dQw4w9WgXcQ"
      (TranscriptData.mk [Segment.mk "Never gonna give you up" 0 (5/2),
        Segment.mk "Never gonna let you down" (5/2) (5/2)] "English" "en" false)
      (VideoMetadata.mk "dQw4w9WgXcQ" "Never Gonna Give You Up"
        "UCuAXFkgsw1L7xaCfnd5JJOw" "Rick Astley" none none (some 213)) rfl rfl).2.2.2.2

end TranscriptStore


/-! ## Structural lemmas about the pattern matchers: successes -/

theorem tryLit_some (lit s : List Char) (k : List Char → Option (List Char))
    (r : List Char) (h : tryLit lit s k = some r) :
    ∃ u, u ⊆ s ∧ k u = some r := by
  unfold tryLit at h
  by_cases hp : lit.isPrefixOf s = true
  · rw [if_pos hp] at h
    exact ⟨s.drop lit.length, List.drop_subset _ _, h⟩
  · rw [if_neg hp] at h
    cases h

theorem tryAlts_some (alts : List (List Char)) (s : List Char)
    (k : List Char → Option (List Char)) (r : List Char)
    (h : tryAlts alts s k = some r) : ∃ u, u ⊆ s ∧ k u = some r := by
  induction alts with
  | nil => cases h
  | cons a rest ih =>
    unfold tryAlts at h
    cases htl : tryLit a s k with
    | some r2 =>
      rw [htl] at h
      exact Option.some.inj h ▸ tryLit_some a s k r2 htl
    | none =>
      rw [htl] at h
      exact ih h

theorem tryDotStar_some (k : List Char → Option (List Char)) (s r : List Char)
    (h : tryDotStar k s = some r) : ∃ u, u ⊆ s ∧ k u = some r := by
  induction s with
  | nil => exact ⟨[], List.Subset.refl [], h⟩
  | cons c cs ih =>
    unfold tryDotStar at h
    by_cases hc : c = '\n'
    · rw [if_pos hc] at h
      exact ⟨c :: cs, List.Subset.refl _, h⟩
    · rw [if_neg hc] at h
      cases hds : tryDotStar k cs with
      | some r2 =>
        rw [hds] at h
        cases h
        obtain ⟨u, hu, hk⟩ := ih hds
        exact ⟨u, List.subset_cons_of_subset c hu, hk⟩
      | none =>
        rw [hds] at h
        exact ⟨c :: cs, List.Subset.refl _, h⟩

theorem reSearch_some (tryAt : List Char → Option (List Char)) (s r : List Char)
    (h : reSearch tryAt s = some r) : ∃ u, u ⊆ s ∧ tryAt u = some r := by
  induction s with
  | nil => exact ⟨[], List.Subset.refl [], h⟩
  | cons c cs ih =>
    unfold reSearch at h
    cases hta : tryAt (c :: cs) with
    | some r2 =>
      rw [hta] at h
      cases h
      exact ⟨c :: cs, List.Subset.refl _, hta⟩
    | none =>
      rw [hta] at h
      obtain ⟨u, hu, hk⟩ := ih h
      exact ⟨u, List.subset_cons_of_subset c hu, hk⟩

theorem tryId11_some (s r : List Char) (h : tryId11 s = some r) :
    r.length = 11 ∧ r.all isIdChar = true := by
  unfold tryId11 at h
  by_cases hc : (decide ((s.take 11).length = 11) && (s.take 11).all isIdChar) = true
  · rw [if_pos hc] at h
    cases h
    obtain ⟨hlen, hall⟩ := Bool.and_eq_true_iff.mp hc
    exact ⟨of_decide_eq_true hlen, hall⟩
  · rw [if_neg hc] at h
    cases h

theorem tryAt1_some (s r : List Char) (h : tryAt1 s = some r) :
    r.length = 11 ∧ r.all isIdChar = true := by
  unfold tryAt1 at h
  obtain ⟨u1, -, h1⟩ := tryAlts_some _ _ _ _ h
  obtain ⟨u2, -, h2⟩ := tryAlts_some _ _ _ _ h1
  obtain ⟨u3, -, h3⟩ := tryLit_some _ _ _ _ h2
  obtain ⟨u4, -, h4⟩ := tryDotStar_some _ _ _ h3
  obtain ⟨u5, -, h5⟩ := tryLit_some _ _ _ _ h4
  exact tryId11_some _ _ h5

theorem tryAt2_some (s r : List Char) (h : tryAt2 s = some r) :
    r.length = 11 ∧ r.all isIdChar = true := by
  unfold tryAt2 at h
  obtain ⟨u1, -, h1⟩ := tryAlts_some _ _ _ _ h
  obtain ⟨u2, -, h2⟩ := tryLit_some _ _ _ _ h1
  exact tryId11_some _ _ h2

theorem tryAt3_some (s r : List Char) (h : tryAt3 s = some r) :
    r.length = 11 ∧ r.all isIdChar = true := by
  unfold tryAt3 at h
  obtain ⟨u1, -, h1⟩ := tryAlts_some _ _ _ _ h
  obtain ⟨u2, -, h2⟩ := tryAlts_some _ _ _ _ h1
  obtain ⟨u3, -, h3⟩ := tryLit_some _ _ _ _ h2
  obtain ⟨u4, -, h4⟩ := tryAlts_some _ _ _ _ h3
  exact tryId11_some _ _ h4

theorem parseCore_ok_shape (s : List Char) (r : String)
    (h : parseCore s = Except.ok r) :
    r.length = 11 ∧ r.data.all isIdChar = true := by
  unfold parseCore at h
  cases hm1 : reSearch tryAt1 s with
  | some id =>
    rw [hm1] at h
    obtain ⟨u, -, hu⟩ := reSearch_some _ _ _ hm1
    have := tryAt1_some _ _ hu
    cases h
    exact this
  | none =>
    rw [hm1] at h
    cases hm2 : reSearch tryAt2 s with
    | some id =>
      rw [hm2] at h
      obtain ⟨u, -, hu⟩ := reSearch_some _ _ _ hm2
      have := tryAt2_some _ _ hu
      cases h
      exact this
    | none =>
      rw [hm2] at h
      cases hm3 : reSearch tryAt3 s with
      | some id =>
        rw [hm3] at h
        obtain ⟨u, -, hu⟩ := reSearch_some _ _ _ hm3
        have := tryAt3_some _ _ hu
        cases h
        exact this
      | none =>
        rw [hm3] at h
        cases hb : bareIdMatch s with
        | true =>
          rw [hb] at h
          cases h
          unfold bareIdMatch at hb
          obtain ⟨hlen, hall⟩ := Bool.and_eq_true_iff.mp hb
          exact ⟨of_decide_eq_true hlen, hall⟩
        | false =>
          rw [hb] at h
          simp at h


/-! ## Structural lemmas about the pattern matchers: failures on id-alphabet
strings -/

/-- Every character of the list is in the id alphabet. -/
def allIdChars (l : List Char) : Prop := ∀ c ∈ l, isIdChar c = true

theorem allIdChars_of_subset {s u : List Char} (hsub : u ⊆ s) (h : allIdChars s) :
    allIdChars u := fun c hc => h c (hsub hc)

theorem tryLit_none_k (lit s : List Char) (k : List Char → Option (List Char))
    (hs : allIdChars s) (Hk : ∀ u, allIdChars u → k u = none) :
    tryLit lit s k = none := by
  unfold tryLit
  by_cases hp : lit.isPrefixOf s = true
  · rw [if_pos hp]
    exact Hk _ (allIdChars_of_subset (List.drop_subset _ _) hs)
  · rw [if_neg hp]

theorem tryLit_none_dot (lit s : List Char) (k : List Char → Option (List Char))
    (hdot : ∃ c ∈ lit, isIdChar c = false) (hs : allIdChars s) :
    tryLit lit s k = none := by
  unfold tryLit
  by_cases hp : lit.isPrefixOf s = true
  · obtain ⟨c, hc, hcf⟩ := hdot
    have hmem : c ∈ s := (List.isPrefixOf_iff_prefix.mp hp).subset hc
    rw [hs c hmem] at hcf
    cases hcf
  · rw [if_neg hp]

theorem tryAlts_none (alts : List (List Char)) (s : List Char)
    (k : List Char → Option (List Char)) (hs : allIdChars s)
    (Hk : ∀ u, allIdChars u → k u = none) : tryAlts alts s k = none := by
  induction alts with
  | nil => rfl
  | cons a rest ih =>
    unfold tryAlts
    rw [tryLit_none_k a s k hs Hk]
    exact ih

theorem tryDotStar_none (k : List Char → Option (List Char)) (s : List Char)
    (hs : allIdChars s) (Hk : ∀ u, allIdChars u → k u = none) :
    tryDotStar k s = none := by
  induction s with
  | nil => exact Hk [] (by intro c hc; cases hc)
  | cons c cs ih =>
    unfold tryDotStar
    by_cases hc : c = '\n'
    · rw [if_pos hc]
      exact Hk _ hs
    · rw [if_neg hc]
      rw [ih (allIdChars_of_subset (List.subset_cons_self c cs) hs)]
      exact Hk _ hs

theorem tryAt1_none (s : List Char) (hs : allIdChars s) : tryAt1 s = none := by
  unfold tryAt1
  apply tryAlts_none _ _ _ hs
  intro u hu
  apply tryAlts_none _ _ _ hu
  intro u2 hu2
  exact tryLit_none_dot _ _ _ ⟨'.', by decide, by decide⟩ hu2

theorem tryAt2_none (s : List Char) (hs : allIdChars s) : tryAt2 s = none := by
  unfold tryAt2
  apply tryAlts_none _ _ _ hs
  intro u hu
  exact tryLit_none_dot _ _ _ ⟨'.', by decide, by decide⟩ hu

theorem tryAt3_none (s : List Char) (hs : allIdChars s) : tryAt3 s = none := by
  unfold tryAt3
  apply tryAlts_none _ _ _ hs
  intro u hu
  apply tryAlts_none _ _ _ hu
  intro u2 hu2
  exact tryLit_none_dot _ _ _ ⟨'.', by decide, by decide⟩ hu2

theorem reSearch_none (tryAt : List Char → Option (List Char))
    (H : ∀ t, allIdChars t → tryAt t = none) (s : List Char) (hs : allIdChars s) :
    reSearch tryAt s = none := by
  induction s with
  | nil => exact H [] (by intro c hc; cases hc)
  | cons c cs ih =>
    unfold reSearch
    rw [H (c :: cs) hs]
    exact ih (allIdChars_of_subset (List.subset_cons_self c cs) hs)

/-! ## `pyStrip` lemmas -/

theorem dropWhile_eq_self_of_none (p : Char → Bool) (l : List Char)
    (h : ∀ c ∈ l, p c = false) : l.dropWhile p = l := by
  cases l with
  | nil => rfl
  | cons c cs =>
    rw [List.dropWhile_cons, h c (List.mem_cons_self c cs)]
    simp

theorem not_space_of_idChar (c : Char) (h : isIdChar c = true) :
    isSpaceChar c = false := by
  cases hsp : isSpaceChar c
  · rfl
  · exfalso
    simp only [isSpaceChar, Bool.or_eq_true, decide_eq_true_eq] at hsp
    rcases hsp with ((h1 | h1) | h1) | h1 <;> subst h1 <;> exact absurd h (by decide)

theorem pyStrip_eq_self (l : List Char) (h : ∀ c ∈ l, isSpaceChar c = false) :
    pyStrip l = l := by
  unfold pyStrip
  rw [dropWhile_eq_self_of_none _ _ h,
    dropWhile_eq_self_of_none _ _ (fun c hc => h c (List.mem_reverse.mp hc)),
    List.reverse_reverse]

theorem pyStrip_cons_space (l : List Char) : pyStrip (' ' :: l) = pyStrip l := by
  unfold pyStrip
  rw [List.dropWhile_cons_of_pos (show isSpaceChar ' ' = true from rfl)]

theorem pyStrip_append_space (l : List Char) : pyStrip (l ++ [' ']) = pyStrip l := by
  unfold pyStrip
  rw [List.dropWhile_append]
  by_cases hm : (l.dropWhile isSpaceChar).isEmpty = true
  · rw [if_pos hm]
    rw [List.isEmpty_iff.mp hm]
    rfl
  · rw [if_neg hm]
    rw [List.reverse_append]
    show (List.dropWhile isSpaceChar
        (([' '] : List Char).reverse ++ (l.dropWhile isSpaceChar).reverse)).reverse = _
    rw [show ([' '] : List Char).reverse = [' '] from rfl]
    rw [show ([' '] : List Char) ++ (l.dropWhile isSpaceChar).reverse
        = ' ' :: (l.dropWhile isSpaceChar).reverse from rfl]
    rw [List.dropWhile_cons_of_pos (show isSpaceChar ' ' = true from rfl)]

theorem pyStrip_pad (l : List Char) : pyStrip (' ' :: l ++ [' ']) = pyStrip l := by
  rw [show (' ' :: l ++ [' ']) = ' ' :: (l ++ [' ']) from rfl,
    pyStrip_cons_space, pyStrip_append_space]


theorem parse_video_id_of_valid_id (r : String) (hlen : r.length = 11)
    (hall : r.data.all isIdChar = true) : parse_video_id r = Except.ok r := by
  have hid : allIdChars r.data := fun c hc => List.all_eq_true.mp hall c hc
  have hstrip : pyStrip r.data = r.data :=
    pyStrip_eq_self r.data (fun c hc => not_space_of_idChar c (hid c hc))
  have hb : bareIdMatch r.data = true := by
    unfold bareIdMatch
    rw [hall]
    have : decide (r.data.length = 11) = true := decide_eq_true hlen
    rw [this]
    rfl
  unfold parse_video_id
  rw [hstrip]
  unfold parseCore
  rw [reSearch_none tryAt1 tryAt1_none r.data hid]
  rw [reSearch_none tryAt2 tryAt2_none r.data hid]
  rw [reSearch_none tryAt3 tryAt3_none r.data hid]
  rw [hb]
  rfl

/-- C10: `parse_video_id` is idempotent on its successes — a successful
result is an 11-character string over the id alphabet, and parsing that
result again succeeds and returns it unchanged. -/
theorem c10_parse_video_id_idempotent (s r : String)
    (h : parse_video_id s = Except.ok r) :
    (r.length = 11 ∧ r.data.all isIdChar = true)
    ∧ parse_video_id r = Except.ok r := by
  have hshape := parseCore_ok_shape (pyStrip s.data) r h
  exact ⟨hshape, parse_video_id_of_valid_id r hshape.1 hshape.2⟩

/-- Witness for C10 at the concrete short-url input. -/
theorem c10_parse_video_id_idempotent_witness :
    (("dQw4w9WgXcQ" : String).length = 11
      ∧ ("dQw4w9WgXcQ" : String).data.all isIdChar = true)
    ∧ parse_video_id "dQw4w9WgXcQ" = Except.ok "dQw4w9WgXcQ" :=
  c10_parse_video_id_idempotent "https://youtu.be/dQw4w9WgXcQ" "dQw4w9WgXcQ" rfl

/-- C8 counterexample: on a rejected input with surrounding whitespace the
not-found error carries the stripped string, not the original input. -/
theorem c8_error_context_counterexample :
    parse_video_id "  not-a-url  " = Except.error (videoNotFoundError "not-a-url")
    ∧ videoNotFoundError "not-a-url" ≠ videoNotFoundError "  not-a-url  " :=
  ⟨rfl, by decide⟩

/-- C8 (amended): `parse_video_id` trims surrounding whitespace before
matching; every accepted input yields an 11-character id over the id
alphabet; every rejected input fails with the not-found error carrying the
trimmed input as context; and the three concrete accepted inputs yield
`dQw4w9WgXcQ` while `not-a-url` fails with the not-found error. -/
theorem c8_parse_video_id (input : String) :
    parse_video_id (String.mk (' ' :: input.data ++ [' '])) = parse_video_id input
    ∧ (∀ r, parse_video_id input = Except.ok r →
        r.length = 11 ∧ r.data.all isIdChar = true)
    ∧ (∀ e, parse_video_id input = Except.error e →
        e = videoNotFoundError (String.mk (pyStrip input.data)))
    ∧ parse_video_id "https://www.youtube.com/watch?v=dQw4w9WgXcQ&list=X&t=5"
        = Except.ok "dQw4w9WgXcQ"
    ∧ parse_video_id "https://youtu.be/dQw4w9WgXcQ" = Except.ok "dQw4w9WgXcQ"
    ∧ parse_video_id "  dQw4w9WgXcQ  " = Except.ok "dQw4w9WgXcQ"
    ∧ parse_video_id "not-a-url" = Except.error (videoNotFoundError "not-a-url") := by
  refine ⟨?_, fun r h => parseCore_ok_shape _ r h,
    fun e h => parse_video_id_error_shape input e h, rfl, rfl, rfl, rfl⟩
  unfold parse_video_id
  congr 1
  exact pyStrip_pad input.data

/-- Witness for C8, discharging the success hypothesis at the padded bare
id and the failure hypothesis at `not-a-url`. -/
theorem c8_parse_video_id_witness :
    (("dQw4w9WgXcQ" : String).length = 11
      ∧ ("dQw4w9WgXcQ" : String).data.all isIdChar = true)
    ∧ videoNotFoundError "not-a-url"
        = videoNotFoundError (String.mk (pyStrip ("not-a-url" : String).data)) :=
  ⟨(c8_parse_video_id "  dQw4w9WgXcQ  ").2.1 "dQw4w9WgXcQ" rfl,
    (c8_parse_video_id "not-a-url").2.2.1 (videoNotFoundError "not-a-url") rfl⟩

end YTX
